import Mathlib

/-!
Verification of the comet-mcp browser-control core.

Shallow embedding, translated from the TypeScript source:
  * `src/cdp-client.ts` — `CometCDPClient` (health check, tab
    categorization, auto-reconnect wrapper, connect/disconnect,
    connection-precondition guards, `newTab`/`closeTab`);
  * `comet-ai.ts` — `CometAI.getAgentStatus` (status classification and
    response extraction);
  * `index.ts` — the `comet_ask` handler polling loop.

JavaScript strings are modelled as `String` (for identifiers, URLs and
messages) or `List Char` (for the character-level response-extraction
pipeline); machine behaviour that is asynchronous in the source is
modelled by passing the outcome of each awaited call as an explicit
argument.
-/

namespace CometMCP

/-- Test `charsStartWith s p` : the char list `s` starts with `p`
(JS `String.prototype.startsWith`, case sensitive). -/
def charsStartWith : List Char → List Char → Bool
  | _, [] => true
  | [], _ :: _ => false
  | a :: as, b :: bs => a == b && charsStartWith as bs

/-- Test `charsContain s sub` : `sub` occurs contiguously inside `s`
(JS `String.prototype.includes`). -/
def charsContain : List Char → List Char → Bool
  | [], sub => sub.isEmpty
  | a :: as, sub => charsStartWith (a :: as) sub || charsContain as sub

/-- JS `haystack.includes(needle)` on `String`. -/
def strIncludes (s sub : String) : Bool :=
  charsContain s.data sub.data

/- ===================== C1 : health check =====================
Embedding of `CometCDPClient.isHealthy` (cdp-client.ts, lines 212-227).

    async isHealthy(): Promise<boolean> {
      if (!this.client || !this.state.connected) return false;
      try {
        const result = await Promise.race([
          this.client.Runtime.evaluate({ expression: "1+1", ... }),
          ...timeout 3000...
        ]);
        return (result as any)?.result?.value === 2;
      } catch {
        this.state.connected = false;
        return false;
      }
    }
-/

/-- The part of the client state `isHealthy` reads and writes:
whether `this.client` is non-null, and `this.state.connected`. -/
structure HealthCtx where
  hasClient : Bool
  connected : Bool
deriving DecidableEq, Repr

/-- Outcome of the awaited `Promise.race` in `isHealthy`: either the
evaluation (or the 3s timeout) throws, or it returns a value. -/
inductive ProbeOut where
  | throws
  | value (v : Int)
deriving DecidableEq, Repr

/-- Method `isHealthy`, returning the boolean result together with the state
as left behind by the method. -/
def isHealthy (s : HealthCtx) (p : ProbeOut) : Bool × HealthCtx :=
  if !s.hasClient || !s.connected then (false, s)
  else
    match p with
    | .throws => (false, { s with connected := false })
    | .value v => (decide (v = 2), s)

/- ===================== C4 : agent status classification ==============
Embedding of the status decision in `CometAI.getAgentStatus`
(comet-ai.ts).  The in-page script samples boolean signals from the DOM
and then decides:

    let status = "idle";
    if (hasActiveStopButton || hasLoadingSpinner) status = "working";
    else if (hasStepsCompleted || hasFinishedMarker) status = "completed";
    else if (hasReviewedSources && !hasWorkingText) status = "completed";
    else if (hasWorkingText) status = "working";
    else if (hasAskFollowUp && hasProseContent && !hasActiveStopButton)
      status = "completed";

with `hasFinishedMarker = body.includes("Finished") && !hasActiveStopButton`.
-/

/-- The three agent states of `getAgentStatus`. -/
inductive AgentState where
  | idle
  | working
  | completed
deriving DecidableEq, Repr

/-- The boolean signals sampled from the page before the status
decision.  `finishedText` is the raw `body.includes("Finished")`;
the derived `hasFinishedMarker` is computed inside the classifier. -/
structure StatusSignals where
  hasActiveStopButton : Bool
  hasLoadingSpinner : Bool
  hasStepsCompleted : Bool
  finishedText : Bool
  hasReviewedSources : Bool
  hasAskFollowUp : Bool
  hasProseContent : Bool
  hasWorkingText : Bool
deriving DecidableEq, Repr

/-- The status decision of `getAgentStatus`. -/
def agentStatus (i : StatusSignals) : AgentState :=
  let hasFinishedMarker := i.finishedText && !i.hasActiveStopButton
  if i.hasActiveStopButton || i.hasLoadingSpinner then .working
  else if i.hasStepsCompleted || hasFinishedMarker then .completed
  else if i.hasReviewedSources && !i.hasWorkingText then .completed
  else if i.hasWorkingText then .working
  else if i.hasAskFollowUp && i.hasProseContent && !i.hasActiveStopButton then .completed
  else .idle

/- ===================== C5 / C10 : new-response detection =============
Embedding of the freshness check in the `comet_ask` handler
(index.ts):

    if (!sawNewResponse) {
      if (currentState.count > oldState.count ||
          (currentState.lastText && currentState.lastText !== oldState.lastText)) {
        sawNewResponse = true;
      }
    }

A JS string is truthy exactly when it is non-empty.
-/

/-- The `{count, lastText}` snapshot taken before sending the prompt
and at each poll. -/
structure PageState where
  count : Nat
  lastText : String
deriving DecidableEq, Repr

/-- The condition under which one poll sets `sawNewResponse`. -/
def detectNew (old cur : PageState) : Bool :=
  decide (cur.count > old.count) ||
    (!cur.lastText.isEmpty && cur.lastText != old.lastText)

/-- One update of the `sawNewResponse` flag (it is monotone: once set
it stays set). -/
def updateSaw (saw : Bool) (old cur : PageState) : Bool :=
  if saw then true else detectNew old cur

/- ===================== C3 : withAutoReconnect ========================
Embedding of `CometCDPClient.withAutoReconnect` (cdp-client.ts,
lines 263-299):

    try {
      const result = await operation();
      this.reconnectAttempts = 0;
      return result;
    } catch (error) {
      const errorMessage = ...;
      const connectionErrors = [ "WebSocket", "CLOSED", "not open",
        "disconnected", "ECONNREFUSED", "ECONNRESET", "Protocol error",
        "Target closed", "Session closed" ];
      if (connectionErrors.some(e => errorMessage.includes(e)) &&
          this.reconnectAttempts < this.maxReconnectAttempts) {
        this.reconnectAttempts++;
        this.isReconnecting = true;
        try {
          ...backoff delay...
          await this.reconnect();
          this.isReconnecting = false;
          return await operation();
        } catch (reconnectError) {
          this.isReconnecting = false;
          throw reconnectError;
        }
      }
      throw error;
    }

`reconnect()` establishes the new channel through `connect()`, and
`connect()` (cdp-client.ts, lines 795-798) performs
`this.reconnectAttempts = 0` once the channel is up; a successful
reconnect is therefore modelled as atomically resetting the counter,
and a failed reconnect as leaving the incremented counter in place.
-/

/-- Outcome of one `await operation()` call. -/
inductive OpOut (α : Type) where
  | ok (v : α)
  | err (msg : String)
deriving DecidableEq, Repr

/-- The environment of one `withAutoReconnect` invocation: what the
first `operation()` call does, whether `reconnect()` succeeds (and the
error it throws when it fails), and what the retried `operation()`
call does if reached. -/
structure CallScript (α : Type) where
  first : OpOut α
  reconnectOk : Bool
  reconnectErrMsg : String
  second : OpOut α
deriving DecidableEq, Repr

/-- What one `withAutoReconnect` invocation produced: its result, the
`reconnectAttempts` counter it leaves behind, how many times it called
`reconnect()`, and how many times it called `operation()`. -/
structure CallResult (α : Type) where
  result : OpOut α
  attemptsAfter : Nat
  reconnects : Nat
  opCalls : Nat
deriving DecidableEq, Repr

/-- The fixed `this.maxReconnectAttempts` of `CometCDPClient`. -/
def maxReconnectAttempts : Nat := 5

/-- The `connectionErrors` indicator list of `withAutoReconnect`. -/
def connectionErrors : List String :=
  ["WebSocket", "CLOSED", "not open", "disconnected",
   "ECONNREFUSED", "ECONNRESET", "Protocol error", "Target closed",
   "Session closed"]

/-- The test `connectionErrors.some(e => errorMessage.includes(e))`. -/
def isConnectionError (msg : String) : Bool :=
  connectionErrors.any (fun e => strIncludes msg e)

/-- One invocation of `withAutoReconnect`, starting from counter
`attempts`. -/
def withAutoReconnect {α : Type} (attempts : Nat) (c : CallScript α) :
    CallResult α :=
  match c.first with
  | .ok v => ⟨.ok v, 0, 0, 1⟩
  | .err msg =>
    if isConnectionError msg && decide (attempts < maxReconnectAttempts) then
      if c.reconnectOk then
        ⟨c.second, 0, 1, 2⟩
      else
        ⟨.err c.reconnectErrMsg, attempts + 1, 1, 1⟩
    else
      ⟨.err msg, attempts, 0, 1⟩

/-- A sequence of `withAutoReconnect` invocations threading the
`reconnectAttempts` counter; returns the final counter and the total
number of `reconnect()` calls performed. -/
def runCalls {α : Type} (attempts : Nat) : List (CallScript α) → Nat × Nat
  | [] => (attempts, 0)
  | c :: rest =>
    let r := withAutoReconnect attempts c
    let t := runCalls r.attemptsAfter rest
    (t.1, r.reconnects + t.2)

/-- A call script belongs to an uninterrupted failure streak when its
operation never succeeds and its reconnect fails. -/
def failingCall {α : Type} (c : CallScript α) : Prop :=
  (∀ v : α, c.first ≠ .ok v) ∧ c.reconnectOk = false

/- ===================== C6 : precondition guards ======================
Embedding of the connection-precondition behaviour of the thin
pass-through operations (cdp-client.ts, lines 837-941).

    private ensureConnected(): void {
      if (!this.client) {
        throw new Error("Not connected to Comet. Call connect() first.");
      }
    }

`navigate`, `screenshot`, `evaluate`, `pressKey` and `insertText` each
begin with `this.ensureConnected();`.  `newTab` performs an HTTP PUT
against `/json/new` without consulting `this.client`; `closeTab` uses
the client when present, and otherwise (or on a thrown CDP call) falls
back to an HTTP `/json/close` request, returning `response.ok`, or
`false` when that request throws — it never raises a precondition
error.
-/

/-- Method `ensureConnected`, as a function of whether `this.client` is
non-null: either it throws the descriptive error or it returns. -/
def ensureConnected (hasClient : Bool) : Except String Unit :=
  if hasClient then .ok ()
  else .error "Not connected to Comet. Call connect() first."

/-- Method `navigate(url, waitForLoad)` up to its first awaited CDP call:
guarded by `ensureConnected`; `navResult` stands for the value the CDP
round trip would produce. -/
def navigate (hasClient : Bool) (navResult : String) : Except String String :=
  match ensureConnected hasClient with
  | .error m => .error m
  | .ok _ => .ok navResult

/-- Method `screenshot(format)`: guarded by `ensureConnected`. -/
def screenshot (hasClient : Bool) (shot : String) : Except String String :=
  match ensureConnected hasClient with
  | .error m => .error m
  | .ok _ => .ok shot

/-- Method `evaluate(expression)`: guarded by `ensureConnected`. -/
def evaluate (hasClient : Bool) (value : String) : Except String String :=
  match ensureConnected hasClient with
  | .error m => .error m
  | .ok _ => .ok value

/-- Method `pressKey(key)`: guarded by `ensureConnected`. -/
def pressKey (hasClient : Bool) : Except String Unit :=
  match ensureConnected hasClient with
  | .error m => .error m
  | .ok _ => .ok ()

/-- Method `insertText(text)`: guarded by `ensureConnected`. -/
def insertText (hasClient : Bool) : Except String Unit :=
  match ensureConnected hasClient with
  | .error m => .error m
  | .ok _ => .ok ()

/-- The HTTP response seen by `newTab` / `closeTab` through
`windowsFetch`. -/
structure FetchResp where
  ok : Bool
  status : Nat
deriving DecidableEq, Repr

/-- Method `newTab(url)`: issues the `/json/new` HTTP request regardless of
`hasClient` (the method never reads `this.client`); `tabId` stands for
the parsed response body. -/
def newTab (hasClient : Bool) (resp : FetchResp) (tabId : String) :
    Except String String :=
  if resp.ok then .ok tabId
  else .error ("Failed to create new tab: " ++ toString resp.status)

/-- Method `closeTab(targetId)`: CDP `Target.closeTarget` when a client
exists (`cdpResult = some success`, or `none` when that call throws),
else the HTTP fallback (`httpResult = some ok`, or `none` when the
request throws, in which case the method returns `false`). -/
def closeTab (hasClient : Bool) (cdpResult : Option Bool)
    (httpResult : Option Bool) : Bool :=
  match (if hasClient then cdpResult else none) with
  | some success => success
  | none =>
    match httpResult with
    | some ok => ok
    | none => false

/- ===================== C2 : tab categorization =======================
Embedding of `CometCDPClient.listTabsCategorized` (cdp-client.ts,
lines 348-380):

    const targets = await this.listTargets();
    return {
      main: targets.find(t => t.type === "page" &&
        t.url.includes("perplexity.ai") && !t.url.includes("sidecar")) || null,
      sidecar: targets.find(t => t.type === "page" &&
        t.url.includes("sidecar")) || null,
      agentBrowsing: targets.find(t => t.type === "page" &&
        !t.url.includes("perplexity.ai") && !t.url.includes("chrome-extension") &&
        !t.url.includes("chrome://") && t.url !== "about:blank") || null,
      overlay: targets.find(t => t.url.includes("chrome-extension") &&
        t.url.includes("overlay")) || null,
      others: targets.filter(t => t.type === "page" &&
        !t.url.includes("perplexity.ai") && !t.url.includes("chrome-extension")),
    };
-/

/-- A CDP target descriptor (the fields `listTabsCategorized` reads). -/
structure CDPTarget where
  id : String
  ty : String
  url : String
deriving DecidableEq, Repr

/-- The `main` predicate of `listTabsCategorized`. -/
def isMain (t : CDPTarget) : Bool :=
  t.ty == "page" && strIncludes t.url "perplexity.ai" &&
    !strIncludes t.url "sidecar"

/-- The `sidecar` predicate of `listTabsCategorized`. -/
def isSidecar (t : CDPTarget) : Bool :=
  t.ty == "page" && strIncludes t.url "sidecar"

/-- The `agentBrowsing` predicate of `listTabsCategorized`. -/
def isAgentBrowsing (t : CDPTarget) : Bool :=
  t.ty == "page" && !strIncludes t.url "perplexity.ai" &&
    !strIncludes t.url "chrome-extension" &&
    !strIncludes t.url "chrome://" && t.url != "about:blank"

/-- The `overlay` predicate of `listTabsCategorized`. -/
def isOverlay (t : CDPTarget) : Bool :=
  strIncludes t.url "chrome-extension" && strIncludes t.url "overlay"

/-- The `others` filter predicate of `listTabsCategorized`. -/
def isOther (t : CDPTarget) : Bool :=
  t.ty == "page" && !strIncludes t.url "perplexity.ai" &&
    !strIncludes t.url "chrome-extension"

/-- The categorized view returned by `listTabsCategorized`. -/
structure TabCats where
  main : Option CDPTarget
  sidecar : Option CDPTarget
  agentBrowsing : Option CDPTarget
  overlay : Option CDPTarget
  others : List CDPTarget
deriving DecidableEq, Repr

/-- Function `listTabsCategorized` over a fixed fresh list of targets. -/
def listTabsCategorized (targets : List CDPTarget) : TabCats where
  main := targets.find? isMain
  sidecar := targets.find? isSidecar
  agentBrowsing := targets.find? isAgentBrowsing
  overlay := targets.find? isOverlay
  others := targets.filter isOther

/-- Target `t` is assigned to the `main` category of the categorization. -/
def assignedMain (targets : List CDPTarget) (t : CDPTarget) : Prop :=
  (listTabsCategorized targets).main = some t

/-- Target `t` is assigned to the `agentBrowsing` category. -/
def assignedAgent (targets : List CDPTarget) (t : CDPTarget) : Prop :=
  (listTabsCategorized targets).agentBrowsing = some t

/-- Target `t` is assigned to the `overlay` category. -/
def assignedOverlay (targets : List CDPTarget) (t : CDPTarget) : Prop :=
  (listTabsCategorized targets).overlay = some t

/-- Target `t` is assigned to the `others` category. -/
def assignedOthers (targets : List CDPTarget) (t : CDPTarget) : Prop :=
  t ∈ (listTabsCategorized targets).others

/-- Target `t` falls into the implicit `excluded` complement: it is assigned
to none of main / agentBrowsing / overlay / others. -/
def assignedExcluded (targets : List CDPTarget) (t : CDPTarget) : Prop :=
  ¬ assignedMain targets t ∧ ¬ assignedAgent targets t ∧
    ¬ assignedOverlay targets t ∧ ¬ assignedOthers targets t

/- ===================== C9 : connect teardown invariant ===============
Embedding of `CometCDPClient.connect` / `disconnect` (cdp-client.ts,
lines 765-838):

    async connect(targetId?: string): Promise<string> {
      if (this.client) { await this.disconnect(); }
      ...
      this.client = await CDP(options);
      ...
      this.state.connected = true;
      ...
    }

    async disconnect(): Promise<void> {
      if (this.client) {
        await this.client.close();
        this.client = null;
        this.state.connected = false;
        this.state.activeTabId = undefined;
      }
    }

Channel handles are abstracted as natural numbers; `live` is the
multiset of handles that have been opened and not yet closed.  Each
`connect` call is split into its two micro-steps — the teardown of any
existing channel (a fully awaited `disconnect`) and the opening of the
new one — so that the at-most-one-live-channel property can be stated
at every instant, including mid-`connect`.
-/

/-- Observable channel state: the current `this.client` handle and the
multiset of live (opened, not yet closed) handles. -/
structure ChanSys where
  client : Option Nat
  live : List Nat
deriving DecidableEq, Repr

/-- The initial, disconnected state. -/
def chanInit : ChanSys := ⟨none, []⟩

/-- Method `disconnect()`: closes the current channel when one exists. -/
def doDisconnect (s : ChanSys) : ChanSys :=
  match s.client with
  | some old => ⟨none, s.live.erase old⟩
  | none => s

/-- The opening half of `connect()`: `this.client = await CDP(options)`
followed by `this.state.connected = true`, with fresh handle `h`. -/
def doOpen (s : ChanSys) (h : Nat) : ChanSys :=
  ⟨some h, h :: s.live⟩

/-- One client call: `connect h` (with the fresh handle `h` the CDP
library would return) or `disconnect`. -/
inductive ChanOp where
  | connect (h : Nat)
  | disconnect
deriving DecidableEq, Repr

/-- The sequence of micro-states a call passes through (every instant
at which `live` can be observed), starting from `s`; `connect` first
runs the teardown, then the open. -/
def opStates (s : ChanSys) : ChanOp → List ChanSys
  | .connect h => [doDisconnect s, doOpen (doDisconnect s) h]
  | .disconnect => [doDisconnect s]

/-- The state a call leaves behind. -/
def opFinal (s : ChanSys) (op : ChanOp) : ChanSys :=
  match op with
  | .connect h => doOpen (doDisconnect s) h
  | .disconnect => doDisconnect s

/-- All micro-states traversed while running a sequence of calls from
state `s` (the trace of observable instants). -/
def runOps (s : ChanSys) : List ChanOp → List ChanSys
  | [] => []
  | op :: rest => opStates s op ++ runOps (opFinal s op) rest

/-- The inductive invariant of the channel state: the `client` field
and the live multiset agree, and at most one handle is live. -/
def chanInv (s : ChanSys) : Prop :=
  match s.client with
  | some h => s.live = [h]
  | none => s.live = []

/- ===================== C8 : response extraction ======================
Embedding of the result-extraction part of `CometAI.getAgentStatus`
(comet-ai.ts).  The in-page script, abridged:

    let response = "";
    if (status === "completed") {
      const allProseEls = mainContent.querySelectorAll("[class*="prose"]");
      const validProseTexts = [];
      const uiPatterns = ["Library", "Discover", "Spaces", "Finance",
        "Account", "Upgrade", "Home", "Search", "Ask a follow-up",
        "Sign in", "Create account", "Settings", "Profile"];
      for (const el of allProseEls) {
        if (el.closest("nav, aside, header, footer, form, ...")) continue;
        const text = el.innerText.trim();
        if (uiPatterns.some(ui => text.startsWith(ui))) continue;
        if (text.endsWith("?") && text.length < 150) continue;
        if (text.length < 10) continue;
        validProseTexts.push(text);
      }
      ...dedup by first-100-char key, join with "\n\n---\n\n"...
      if (response) {
        response = response
          .replace(/View All|Show more|Ask a follow-up|\d+ sources?/gi, "")
          .trim();
        response = response.replace(/[ \t]+/g, " ");
        response = response.replace(/\n{3,}/g, "\n\n");
      }
    }
    return { ..., response: response.substring(0, 50000), ... };

Page text is modelled at the character level (`List Char`).
-/

/-- Case-insensitive character equality (ASCII case folding, the
effect of the JS regex `i` flag on these ASCII-only patterns). -/
def ciEq (a b : Char) : Bool :=
  a.toLower == b.toLower

/-- Case-insensitive `charsStartWith`. -/
def ciStarts : List Char → List Char → Bool
  | _, [] => true
  | [], _ :: _ => false
  | a :: as, b :: bs => ciEq a b && ciStarts as bs

/-- Test `charsEndWith s p` : `s` ends with `p`
(JS `String.prototype.endsWith`). -/
def charsEndWith (s p : List Char) : Bool :=
  charsStartWith s.reverse p.reverse

/-- JS `String.prototype.trim`: strip leading and trailing
whitespace. -/
def jsTrim (s : List Char) : List Char :=
  ((s.dropWhile Char.isWhitespace).reverse.dropWhile Char.isWhitespace).reverse

/-- Match of the regex alternative `\d+ sources?` (case-insensitive)
at the head of `s`: a maximal run of one or more digits, then
`" source"`, then an optional `s`; returns the matched length. -/
def matchSources (s : List Char) : Option Nat :=
  let d := (s.takeWhile Char.isDigit).length
  if d = 0 then none
  else
    let rest := s.drop d
    if ciStarts rest " source".data then
      match rest.drop 7 with
      | c :: _ => if ciEq c 's' then some (d + 8) else some (d + 7)
      | [] => some (d + 7)
    else none

/-- Match of `/View All|Show more|Ask a follow-up|\d+ sources?/i` at
the head of `s` (alternatives tried in regex order); returns the
matched length. -/
def matchCleanupAt (s : List Char) : Option Nat :=
  if ciStarts s "View All".data then some 8
  else if ciStarts s "Show more".data then some 9
  else if ciStarts s "Ask a follow-up".data then some 15
  else matchSources s

/-- The scan of `replace(/View All|Show more|Ask a follow-up|\d+
sources?/gi, "")`: walk left to right, deleting each match.  Every
alternative matches at least one character, so after a match of length
`k` the scan resumes `k - 1` characters into the tail.  The scan
consumes at least one character per step; `fuel` (instantiated with
the input length, which therefore never runs out) makes the recursion
structural. -/
def removeCleanupFuel : Nat → List Char → List Char
  | 0, _ => []
  | _ + 1, [] => []
  | fuel + 1, c :: rest =>
    match matchCleanupAt (c :: rest) with
    | some k => removeCleanupFuel fuel (rest.drop (k - 1))
    | none => c :: removeCleanupFuel fuel rest

/-- The replacement `replace(/View All|Show more|Ask a follow-up|\d+ sources?/gi, "")`. -/
def removeCleanup (s : List Char) : List Char :=
  removeCleanupFuel s.length s

/-- The replacement `replace(/[ \t]+/g, " ")`: collapse every run of spaces and tabs
to a single space. -/
def squashSpaces : List Char → List Char
  | [] => []
  | c :: rest =>
    if c == ' ' || c == '\t' then
      match rest with
      | d :: _ =>
        if d == ' ' || d == '\t' then squashSpaces rest
        else ' ' :: squashSpaces rest
      | [] => [' ']
    else c :: squashSpaces rest

/-- The scan of `replace(/\n{3,}/g, "\n\n")`: collapse every run of
three or more newlines to exactly two.  Each step consumes at least
one character; `fuel` (instantiated with the input length) makes the
recursion structural. -/
def squashNewlinesFuel : Nat → List Char → List Char
  | 0, _ => []
  | _ + 1, [] => []
  | _ + 1, [c] => if c == '\n' then ['\n'] else [c]
  | _ + 1, [c, d] =>
    if c == '\n' then
      if d == '\n' then ['\n', '\n'] else ['\n', d]
    else
      if d == '\n' then [c, '\n'] else [c, d]
  | fuel + 1, c :: d :: e :: rest3 =>
    if c == '\n' then
      if d == '\n' then
        if e == '\n' then squashNewlinesFuel fuel (d :: e :: rest3)
        else '\n' :: '\n' :: squashNewlinesFuel fuel (e :: rest3)
      else '\n' :: squashNewlinesFuel fuel (d :: e :: rest3)
    else c :: squashNewlinesFuel fuel (d :: e :: rest3)

/-- The replacement `replace(/\n{3,}/g, "\n\n")`. -/
def squashNewlines (s : List Char) : List Char :=
  squashNewlinesFuel s.length s

/-- One sampled rich-content (`[class*="prose"]`) element: its inner
text and whether `el.closest("nav, aside, header, footer, form,
[role="navigation"]")` found an enclosing chrome region. -/
structure ProseEl where
  text : List Char
  inChrome : Bool
deriving DecidableEq, Repr

/-- The `uiPatterns` list of `getAgentStatus`. -/
def uiPatterns : List String :=
  ["Library", "Discover", "Spaces", "Finance", "Account",
   "Upgrade", "Home", "Search", "Ask a follow-up", "Sign in",
   "Create account", "Settings", "Profile"]

/-- The `validProseTexts` collection loop: skip chrome-nested
elements, trim, skip UI text, skip short trailing questions, skip very
short fragments. -/
def validTexts (els : List ProseEl) : List (List Char) :=
  els.filterMap (fun e =>
    if e.inChrome then none
    else
      let text := jsTrim e.text
      if uiPatterns.any (fun ui => charsStartWith text ui.data) then none
      else if charsEndWith text ['?'] && decide (text.length < 150) then none
      else if decide (text.length < 10) then none
      else some text)

/-- The `seen`-set deduplication: keep the first text for each
first-100-character key. -/
def dedupByKey : List (List Char) → List (List Char) → List (List Char)
  | [], _ => []
  | t :: rest, seen =>
    let key := t.take 100
    if seen.contains key then dedupByKey rest seen
    else t :: dedupByKey rest (key :: seen)

/-- The `if (response) { ...three replaces and a trim... }` cleanup
step (a JS string is truthy exactly when non-empty). -/
def cleanupResponse (r : List Char) : List Char :=
  if r.isEmpty then r
  else squashNewlines (squashSpaces (jsTrim (removeCleanup r)))

/-- The `response` local of `getAgentStatus` just before the final
`substring` cap: empty unless the status resolved to completed,
otherwise the filtered, deduplicated, joined and cleaned prose text
(`uniqueTexts.join("\n\n---\n\n")` of an empty list is the empty
string, matching the `validProseTexts.length > 0` guard). -/
def rawResponse (status : AgentState) (els : List ProseEl) : List Char :=
  if status = .completed then
    cleanupResponse
      (List.intercalate "\n\n---\n\n".data (dedupByKey (validTexts els) []))
  else []

/-- The fixed cap of `response.substring(0, 50000)`. -/
def maxResponseLen : Nat := 50000

/-- The `response` field actually returned by `getAgentStatus`. -/
def responseField (status : AgentState) (els : List ProseEl) : List Char :=
  (rawResponse status els).take maxResponseLen

/- ===================== C7 : the comet_ask polling loop ===============
Embedding of the wait-for-completion part of the `comet_ask` handler
(index.ts):

    const startTime = Date.now();
    const stepsCollected: string[] = [];
    let sawNewResponse = false;
    while (Date.now() - startTime < timeout) {
      await new Promise(resolve => setTimeout(resolve, 2000));
      ...sample currentState...
      if (!sawNewResponse) { ...detectNew... }
      const status = await cometAI.getAgentStatus();
      for (const step of status.steps)
        if (!stepsCollected.includes(step)) stepsCollected.push(step);
      if (status.status === "completed" && sawNewResponse) {
        return ...status.response || "Task completed (no response text extracted)"...;
      }
    }
    const finalStatus = await cometAI.getAgentStatus();
    ...build the "Task in progress" message from finalStatus and
       stepsCollected, and return it...

Each loop iteration is dominated by the fixed 2000 ms sleep, so a call
with a given `timeout` performs `⌈timeout / 2000⌉` polls; the i-th
poll"s observations are supplied by the `sample` argument, and the
post-loop `getAgentStatus()` by `final`.
-/

/-- The snapshot returned by `getAgentStatus` as consumed by the
handler. -/
structure AgentSnapshot where
  status : AgentState
  steps : List String
  currentStep : String
  response : String
  agentBrowsingUrl : String
deriving DecidableEq, Repr

/-- What one poll iteration observes: the `{count, lastText}` page
state and the agent snapshot. -/
structure PollSample where
  page : PageState
  snap : AgentSnapshot
deriving DecidableEq, Repr

/-- The step-collection loop body: append each step not already
collected, preserving order. -/
def collectSteps (collected : List String) (steps : List String) : List String :=
  steps.foldl (fun acc s => if acc.contains s then acc else acc ++ [s]) collected

/-- The fields of the structured "Task in progress" message: step
count, status, current step, agent-browsing URL and the collected
steps list. -/
structure InProgressInfo where
  stepCount : Nat
  status : AgentState
  currentStep : String
  agentBrowsingUrl : String
  steps : List String
deriving DecidableEq, Repr

/-- The two ways the handler returns: the completed response text, or
the structured in-progress snapshot.  (The type has no error
alternative: the loop itself never throws.) -/
inductive AskReturn where
  | completedText (s : String)
  | inProgress (info : InProgressInfo)
deriving DecidableEq, Repr

/-- The post-loop "Task in progress" construction from `finalStatus`
and `stepsCollected`. -/
def buildInProgress (final : AgentSnapshot) (collected : List String) :
    InProgressInfo :=
  ⟨collected.length, final.status, final.currentStep,
    final.agentBrowsingUrl, collected⟩

/-- The polling loop over the per-iteration observations. -/
def askLoop (old : PageState) (final : AgentSnapshot) :
    List PollSample → Bool → List String → AskReturn
  | [], _, collected => .inProgress (buildInProgress final collected)
  | s :: rest, saw, collected =>
    let saw2 := updateSaw saw old s.page
    let collected2 := collectSteps collected s.snap.steps
    if s.snap.status == .completed && saw2 then
      .completedText (if s.snap.response.isEmpty
        then "Task completed (no response text extracted)"
        else s.snap.response)
    else askLoop old final rest saw2 collected2

/-- Number of poll iterations a `timeout` (in ms) admits: the loop
condition is re-checked after each 2000 ms sleep. -/
def numPolls (timeout : Nat) : Nat :=
  (timeout + 1999) / 2000

/-- The wait-for-completion part of the `comet_ask` handler:
`old` is the baseline captured before the prompt was sent. -/
def cometAsk (old : PageState) (timeout : Nat) (sample : Nat → PollSample)
    (final : AgentSnapshot) : AskReturn :=
  askLoop old final ((List.range (numPolls timeout)).map sample) false []

/-- The surface never reaches completed-with-fresh-response along a
poll sequence: at no poll is the status `completed` while the
`sawNewResponse` flag — threaded through the polls exactly as the loop
updates it — is set.  This is the negation, at every iteration, of the
loop's early-exit condition `status.status === "completed" &&
sawNewResponse`; it covers both never-completed surfaces and
stale-completed ones (a completed status whose content never changed
from the baseline). -/
def noFreshComplete (old : PageState) : Bool → List PollSample → Prop
  | _, [] => True
  | saw, s :: rest =>
    ¬(s.snap.status = .completed ∧ updateSaw saw old s.page = true) ∧
      noFreshComplete old (updateSaw saw old s.page) rest

/- ========================= Theorems ================================ -/

/-- C1 counterexample.  The claim states that whenever `isHealthy`
returns `false` the connected flag has been cleared; but when the
round-trip probe returns a value other than `2` without throwing
(here `3`), `isHealthy` returns `false` while `state.connected` stays
`true` — only the catch branch clears the flag. -/
theorem isHealthy_mismatch_counterexample :
    (isHealthy ⟨true, true⟩ (.value 3)).1 = false ∧
    (isHealthy ⟨true, true⟩ (.value 3)).2.connected = true := by
  decide

/-- C1 (amended).  Whenever `isHealthy` returns `false`, either the
connected flag is clear afterwards or the state is left unchanged (the
mismatched-value return and the no-client early return leave the state
untouched); and a thrown failure or timeout, from a connected state
with a client, does clear the flag. -/
theorem isHealthy_clears_flag_amended :
    ∀ (s : HealthCtx) (p : ProbeOut),
      ((isHealthy s p).1 = false →
        (isHealthy s p).2.connected = false ∨ (isHealthy s p).2 = s) ∧
      (s.hasClient = true → s.connected = true → p = .throws →
        isHealthy s p = (false, ⟨true, false⟩)) := by
  intro s p
  obtain ⟨hc, cn⟩ := s
  constructor
  · intro h
    cases p with
    | throws => cases hc <;> cases cn <;> simp_all [isHealthy]
    | value v => cases hc <;> cases cn <;> simp_all [isHealthy]
  · intro h1 h2 h3
    subst h1; subst h2; subst h3
    rfl

/-- Witness for C1 (amended): instantiated at a connected client state
whose probe throws. -/
theorem isHealthy_clears_flag_amended_witness :
    ((isHealthy ⟨true, true⟩ .throws).2.connected = false ∨
      (isHealthy ⟨true, true⟩ .throws).2 = ⟨true, true⟩) ∧
    isHealthy ⟨true, true⟩ .throws = (false, ⟨true, false⟩) :=
  ⟨(isHealthy_clears_flag_amended ⟨true, true⟩ .throws).1 (by decide),
   (isHealthy_clears_flag_amended ⟨true, true⟩ .throws).2 rfl rfl rfl⟩

/-- C4.  Busy signals are checked first and win: whenever an active
stop control or a loading spinner is present the status is `working`,
whatever completion markers are simultaneously present; and a
`completed` classification can only arise with both busy signals
absent. -/
theorem agentStatus_busy_precedence :
    ∀ i : StatusSignals,
      ((i.hasActiveStopButton || i.hasLoadingSpinner) = true →
        agentStatus i = .working) ∧
      (agentStatus i = .completed →
        i.hasActiveStopButton = false ∧ i.hasLoadingSpinner = false) := by
  intro i
  constructor
  · intro h
    simp [agentStatus, h]
  · intro h
    cases ha : i.hasActiveStopButton <;> cases hl : i.hasLoadingSpinner
    · exact ⟨rfl, rfl⟩
    all_goals
      (have hw : agentStatus i = .working := by simp [agentStatus, ha, hl]
       rw [hw] at h
       exact absurd h (by simp))

/-- Witness for C4: a state with an active stop control and every
completion marker set is still classified `working`; a state whose
only marker is "steps completed" is classified `completed` and indeed
has both busy signals off. -/
theorem agentStatus_busy_precedence_witness :
    agentStatus ⟨true, false, true, true, true, true, true, false⟩ = .working ∧
    ((⟨false, false, true, false, false, false, false, false⟩ : StatusSignals).hasActiveStopButton
        = false ∧
      (⟨false, false, true, false, false, false, false, false⟩ : StatusSignals).hasLoadingSpinner
        = false) :=
  ⟨(agentStatus_busy_precedence ⟨true, false, true, true, true, true, true, false⟩).1 (by decide),
   (agentStatus_busy_precedence ⟨false, false, true, false, false, false, false, false⟩).2
     (by decide)⟩

/-- C5.  The new-response test vectors: against baseline
`{count 1, lastText "A"}`, the sample `{1, "A"}` does not set the
freshness flag, while `{2, "A"}` and `{1, "B"}` both do. -/
theorem newResponse_detection_vectors :
    updateSaw false ⟨1, "A"⟩ ⟨1, "A"⟩ = false ∧
    updateSaw false ⟨1, "A"⟩ ⟨2, "A"⟩ = true ∧
    updateSaw false ⟨1, "A"⟩ ⟨1, "B"⟩ = true := by
  decide

/-- C10.  When the current last-block text is empty, the text-change
branch cannot fire (JS truthiness of the empty string), so the flag is
set exactly when it was already set or the block count increased —
whatever the baseline text was. -/
theorem empty_lastText_only_count_freshness :
    ∀ (old cur : PageState) (saw : Bool),
      cur.lastText = "" →
      updateSaw saw old cur = (saw || decide (cur.count > old.count)) := by
  intro old cur saw h
  obtain ⟨c, lt⟩ := cur
  simp only at h
  subst h
  cases saw with
  | true => rfl
  | false =>
    have he : ("" : String).isEmpty = true := rfl
    simp [updateSaw, detectNew, he]

/-- Witness for C10: baseline text "A" (non-empty), current text
empty, count increased from 1 to 2. -/
theorem empty_lastText_only_count_freshness_witness :
    updateSaw false ⟨1, "A"⟩ ⟨2, ""⟩ = (false || decide ((2 : Nat) > 1)) :=
  empty_lastText_only_count_freshness ⟨1, "A"⟩ ⟨2, ""⟩ false rfl

/-- C6 counterexample.  The claim states that every listed
pass-through, including `newTab` and `closeTab`, fails fast with a
descriptive error when no control channel exists; but `newTab` invoked
with no client completes via plain HTTP without any precondition
error, and `closeTab` with no client silently returns a boolean
(`true` on HTTP success, `false` when even the HTTP fallback throws)
instead of raising. -/
theorem newTab_closeTab_unguarded_counterexample :
    newTab false ⟨true, 200⟩ "tab-1" = .ok "tab-1" ∧
    closeTab false none (some true) = true ∧
    closeTab false none none = false :=
  ⟨rfl, by decide, by decide⟩

/-- C6 (amended).  `navigate`, `screenshot`, `evaluate`, `pressKey`
and `insertText` do fail fast with the descriptive
`ensureConnected` error when no channel exists; `newTab` ignores the
connection state entirely (its behaviour is the same with or without a
client), and `closeTab` with no client ignores any CDP outcome and
resolves through the HTTP fallback without ever raising a
precondition error. -/
theorem passthrough_guards_amended :
    ∀ (navResult shot value tabId : String) (resp : FetchResp)
      (hc : Bool) (cdpR httpR : Option Bool),
      navigate false navResult =
        .error "Not connected to Comet. Call connect() first." ∧
      screenshot false shot =
        .error "Not connected to Comet. Call connect() first." ∧
      evaluate false value =
        .error "Not connected to Comet. Call connect() first." ∧
      pressKey false =
        .error "Not connected to Comet. Call connect() first." ∧
      insertText false =
        .error "Not connected to Comet. Call connect() first." ∧
      newTab hc resp tabId = newTab false resp tabId ∧
      closeTab false cdpR httpR = closeTab false none httpR := by
  intro navResult shot value tabId resp hc cdpR httpR
  exact ⟨rfl, rfl, rfl, rfl, rfl, rfl, rfl⟩

/-- C2 counterexample.  The claim states that no descriptor is
assigned to more than one category; but a single ordinary page (here
"https://example.com") is simultaneously the `agentBrowsing` pick and
a member of `others`. -/
theorem listTabsCategorized_overlap_counterexample :
    assignedAgent [⟨"t1", "page", "https://example.com"⟩]
        ⟨"t1", "page", "https://example.com"⟩ ∧
      assignedOthers [⟨"t1", "page", "https://example.com"⟩]
        ⟨"t1", "page", "https://example.com"⟩ := by
  constructor
  · simp only [assignedAgent, listTabsCategorized]
    decide
  · simp only [assignedOthers, listTabsCategorized]
    decide

/-- C2 (amended).  The classification is a pure function of the
descriptor list, and every descriptor lands in at least one of
{main, agentBrowsing, overlay, others, excluded}; but the categories
are not mutually exclusive: the descriptor selected as `agentBrowsing`
always also belongs to `others` (its predicate strictly refines the
`others` filter), whereas the `main` pick never does. -/
theorem listTabsCategorized_roles_amended :
    ∀ (targets : List CDPTarget) (t : CDPTarget),
      (t ∈ targets →
        assignedMain targets t ∨ assignedAgent targets t ∨
          assignedOverlay targets t ∨ assignedOthers targets t ∨
          assignedExcluded targets t) ∧
      (assignedAgent targets t → assignedOthers targets t) ∧
      (assignedMain targets t → ¬ assignedOthers targets t) := by
  intro ts t
  refine ⟨?_, ?_, ?_⟩
  · intro _
    by_cases h1 : assignedMain ts t
    · exact Or.inl h1
    by_cases h2 : assignedAgent ts t
    · exact Or.inr (Or.inl h2)
    by_cases h3 : assignedOverlay ts t
    · exact Or.inr (Or.inr (Or.inl h3))
    by_cases h4 : assignedOthers ts t
    · exact Or.inr (Or.inr (Or.inr (Or.inl h4)))
    · exact Or.inr (Or.inr (Or.inr (Or.inr ⟨h1, h2, h3, h4⟩)))
  · intro h
    simp only [assignedAgent, listTabsCategorized] at h
    have hmem : t ∈ ts := List.mem_of_find?_eq_some h
    have hp : isAgentBrowsing t = true := List.find?_some h
    have ho : isOther t = true := by
      simp only [isAgentBrowsing, Bool.and_eq_true] at hp
      simp only [isOther, Bool.and_eq_true]
      tauto
    simp only [assignedOthers, listTabsCategorized]
    exact List.mem_filter.mpr ⟨hmem, ho⟩
  · intro h hmem
    simp only [assignedMain, listTabsCategorized] at h
    simp only [assignedOthers, listTabsCategorized] at hmem
    have hp : isMain t = true := List.find?_some h
    have ho : isOther t = true := (List.mem_filter.mp hmem).2
    simp only [isMain, Bool.and_eq_true] at hp
    simp only [isOther, Bool.and_eq_true] at ho
    simp_all

/-- Witness for C2 (amended): instantiated on a one-page list whose
page is the agent-browsing pick, concluding it is also in `others`. -/
theorem listTabsCategorized_roles_amended_witness :
    assignedOthers [⟨"t2", "page", "https://news.example/x"⟩]
      ⟨"t2", "page", "https://news.example/x"⟩ :=
  (listTabsCategorized_roles_amended [⟨"t2", "page", "https://news.example/x"⟩]
      ⟨"t2", "page", "https://news.example/x"⟩).2.1
    (by simp only [assignedAgent, listTabsCategorized]; decide)

/-- Preservation of the channel invariant by every micro-step of a
call, together with the at-most-one-live bound at each traversed
instant. -/
theorem chanInv_step (s : ChanSys) (hs : chanInv s) (op : ChanOp) :
    (∀ s2 ∈ opStates s op, s2.live.length ≤ 1) ∧ chanInv (opFinal s op) := by
  have hd : doDisconnect s = ⟨none, []⟩ := by
    obtain ⟨c, l⟩ := s
    cases c with
    | some h =>
      simp only [chanInv] at hs
      simp [doDisconnect, hs]
    | none =>
      simp only [chanInv] at hs
      simp [doDisconnect, hs]
  cases op with
  | connect h =>
    constructor
    · intro s2 hmem
      simp only [opStates, hd, List.mem_cons, List.mem_singleton] at hmem
      rcases hmem with rfl | rfl | hfalse
      · simp
      · simp [doOpen]
      · cases hfalse
    · simp [opFinal, hd, doOpen, chanInv]
  | disconnect =>
    constructor
    · intro s2 hmem
      simp only [opStates, hd, List.mem_singleton] at hmem
      subst hmem
      simp
    · simp [opFinal, hd, chanInv]

/-- Invariant propagation along a whole call sequence: from an
invariant-satisfying start, every micro-state in the trace has at most
one live channel. -/
theorem runOps_live_bound :
    ∀ (ops : List ChanOp) (s : ChanSys), chanInv s →
      ∀ s2 ∈ runOps s ops, s2.live.length ≤ 1 := by
  intro ops
  induction ops with
  | nil =>
    intro s _ s2 hmem
    simp [runOps] at hmem
  | cons op rest ih =>
    intro s hs s2 hmem
    simp only [runOps, List.mem_append] at hmem
    rcases hmem with hmem | hmem
    · exact (chanInv_step s hs op).1 s2 hmem
    · exact ih (opFinal s op) (chanInv_step s hs op).2 s2 hmem

/-- C9.  For every sequence of `connect` / `disconnect` calls starting
from the disconnected initial state, at most one channel handle is
live at every instant of the execution trace: `connect` fully tears
down any prior channel before opening the new one. -/
theorem connect_teardown_invariant :
    ∀ (ops : List ChanOp), ∀ s2 ∈ runOps chanInit ops, s2.live.length ≤ 1 := by
  intro ops
  exact runOps_live_bound ops chanInit (by simp [chanInit, chanInv])

/-- Witness for C9: after `connect 1; connect 2` the traversed state
holding handle 2 is in the trace and has one live channel. -/
theorem connect_teardown_invariant_witness :
    (ChanSys.mk (some 2) [2]).live.length ≤ 1 :=
  connect_teardown_invariant [.connect 1, .connect 2] ⟨some 2, [2]⟩ (by decide)

/-- Evaluation of one `withAutoReconnect` invocation on a call whose
reconnect fails: either the guard fired (connection error, budget not
exhausted) and the counter advanced by one, or the original error
propagated with the counter untouched. -/
theorem withAutoReconnect_failing {α : Type} (a : Nat) (c : CallScript α)
    (msg : String) (hf : c.first = .err msg) (hrok : c.reconnectOk = false) :
    (a < maxReconnectAttempts ∧
      withAutoReconnect a c = ⟨.err c.reconnectErrMsg, a + 1, 1, 1⟩) ∨
    withAutoReconnect a c = ⟨.err msg, a, 0, 1⟩ := by
  cases h1 : isConnectionError msg with
  | false => exact Or.inr (by simp [withAutoReconnect, hf, h1])
  | true =>
    by_cases h2 : a < maxReconnectAttempts
    · exact Or.inl ⟨h2, by simp [withAutoReconnect, hf, hrok, h1, h2]⟩
    · exact Or.inr (by simp [withAutoReconnect, hf, h1, h2])

/-- The streak bound generalized over the starting counter: along a
sequence of calls that all fail and whose reconnects all fail, at most
`maxReconnectAttempts - a` reconnects are performed from counter `a`. -/
theorem runCalls_failing_bound {α : Type} (cs : List (CallScript α)) :
    ∀ a : Nat, (∀ d ∈ cs, failingCall d) →
      (runCalls a cs).2 ≤ maxReconnectAttempts - a := by
  induction cs with
  | nil =>
    intro a _
    simp [runCalls]
  | cons c rest ih =>
    intro a h
    obtain ⟨hnot, hrok⟩ := h c (List.mem_cons_self c rest)
    have hrest : ∀ d ∈ rest, failingCall d :=
      fun d hd => h d (List.mem_cons_of_mem c hd)
    rcases hf : c.first with v | msg
    · exact absurd hf (hnot v)
    · rcases withAutoReconnect_failing a c msg hf hrok with ⟨h2, heq⟩ | heq
      · have hr := ih (a + 1) hrest
        simp only [runCalls, heq]
        simp only [maxReconnectAttempts] at h2 hr ⊢
        omega
      · have hr := ih a hrest
        simp only [runCalls, heq]
        simp only [maxReconnectAttempts] at hr ⊢
        omega

/-- C3.  The `withAutoReconnect` bounds: the operation is retried at
most once per reconnect (per invocation at most one reconnect, and at
most one more operation call than reconnects); over any uninterrupted
failure streak starting from a fresh counter, at most
`maxReconnectAttempts` (5) reconnects happen in total; a
non-connection-loss error propagates unchanged with no reconnect and
an untouched counter; and whenever the invocation returns a success
the counter is left at zero. -/
theorem withAutoReconnect_bounds :
    ∀ {α : Type} (a : Nat) (c : CallScript α) (cs : List (CallScript α)),
      ((withAutoReconnect a c).reconnects ≤ 1 ∧
        (withAutoReconnect a c).opCalls ≤ 1 + (withAutoReconnect a c).reconnects) ∧
      ((∀ d ∈ cs, failingCall d) → (runCalls 0 cs).2 ≤ maxReconnectAttempts) ∧
      (∀ msg, c.first = .err msg → isConnectionError msg = false →
        withAutoReconnect a c = ⟨.err msg, a, 0, 1⟩) ∧
      (∀ v, (withAutoReconnect a c).result = .ok v →
        (withAutoReconnect a c).attemptsAfter = 0) := by
  intro α a c cs
  refine ⟨?_, ?_, ?_, ?_⟩
  · rcases hf : c.first with v | msg
    · simp [withAutoReconnect, hf]
    · by_cases h1 : (isConnectionError msg && decide (a < maxReconnectAttempts)) = true
      · by_cases h2 : c.reconnectOk = true
        · simp [withAutoReconnect, hf, h1, h2]
        · simp [withAutoReconnect, hf, h1, h2]
      · simp [withAutoReconnect, hf, h1]
  · intro h
    have := runCalls_failing_bound cs 0 h
    simpa using this
  · intro msg hf hni
    simp [withAutoReconnect, hf, hni]
  · intro v hres
    rcases hf : c.first with w | msg
    · simp [withAutoReconnect, hf]
    · by_cases h1 : (isConnectionError msg && decide (a < maxReconnectAttempts)) = true
      · by_cases h2 : c.reconnectOk = true
        · simp [withAutoReconnect, hf, h1, h2]
        · simp [withAutoReconnect, hf, h1, h2] at hres
      · simp [withAutoReconnect, hf, h1] at hres

/-- Witness for C3: a streak of eight identical connection-loss calls
with failing reconnects performs at most five reconnects; a call
failing with a non-connection error propagates it unchanged with no
reconnect; a call whose operation succeeds leaves the counter at
zero. -/
theorem withAutoReconnect_bounds_witness :
    (runCalls 0 (List.replicate 8
        (⟨.err "ECONNRESET", false, "rc failed", .ok 7⟩ : CallScript Nat))).2 ≤
      maxReconnectAttempts ∧
    withAutoReconnect 2 (⟨.err "SyntaxError: bad input", false, "rc", .ok 7⟩ :
        CallScript Nat) = ⟨.err "SyntaxError: bad input", 2, 0, 1⟩ ∧
    (withAutoReconnect 3 (⟨.ok 9, false, "rc", .ok 9⟩ : CallScript Nat)).attemptsAfter = 0 := by
  refine ⟨(withAutoReconnect_bounds 0
      (⟨.err "ECONNRESET", false, "rc failed", .ok 7⟩ : CallScript Nat)
      (List.replicate 8 ⟨.err "ECONNRESET", false, "rc failed", .ok 7⟩)).2.1 ?_,
    (withAutoReconnect_bounds 2
      (⟨.err "SyntaxError: bad input", false, "rc", .ok 7⟩ : CallScript Nat)
      []).2.2.1 "SyntaxError: bad input" rfl (by decide),
    (withAutoReconnect_bounds 3
      (⟨.ok 9, false, "rc", .ok 9⟩ : CallScript Nat) []).2.2.2 9 rfl⟩
  intro d hd
  have hde := List.eq_of_mem_replicate hd
  subst hde
  constructor
  · intro v h
    cases h
  · rfl

/-- Evaluation of the polling loop on observations along which the
early-exit condition — a `completed` status with the freshness flag
set as threaded through the polls — never holds: the loop always falls
through to the structured in-progress construction. -/
theorem askLoop_no_fresh_complete (old : PageState) (final : AgentSnapshot) :
    ∀ (l : List PollSample) (saw : Bool) (collected : List String),
      noFreshComplete old saw l →
      ∃ steps, askLoop old final l saw collected =
        .inProgress (buildInProgress final steps) := by
  intro l
  induction l with
  | nil =>
    intro saw coll _
    exact ⟨coll, rfl⟩
  | cons s rest ih =>
    intro saw coll h
    obtain ⟨h1, h2⟩ := h
    have hcond : (s.snap.status == AgentState.completed &&
        updateSaw saw old s.page) = false := by
      by_cases hst : s.snap.status = .completed
      · have hsaw : updateSaw saw old s.page = false := by
          cases hu : updateSaw saw old s.page
          · rfl
          · exact absurd ⟨hst, hu⟩ h1
        simp [hsaw]
      · have hb : (s.snap.status == AgentState.completed) = false := by
          cases hx : s.snap.status <;> simp_all
        simp [hb]
    simp only [askLoop, hcond, Bool.false_eq_true, if_false]
    exact ih _ _ h2

/-- C7.  For every ask invocation whose surface never reaches
completed-with-fresh-response at any poll within the caller-supplied
timeout — whether it never completes at all, or only ever shows a
stale completed answer whose content never changed from the baseline —
the handler returns the structured in-progress snapshot built from the
final status sample and the collected steps: it neither throws (the
return type has no error alternative) nor loops forever (the poll list
is finite, of length `⌈timeout / 2000⌉`). -/
theorem ask_timeout_in_progress :
    ∀ (old : PageState) (timeout : Nat) (sample : Nat → PollSample)
      (final : AgentSnapshot),
      noFreshComplete old false ((List.range (numPolls timeout)).map sample) →
      ∃ steps, cometAsk old timeout sample final =
        .inProgress (buildInProgress final steps) := by
  intro old timeout sample final h
  exact askLoop_no_fresh_complete old final _ false [] h

/-- Witness for C7: a one-time-unit timeout against a surface showing
a stale completed answer — status `completed` at the poll, but with
the page content identical to the baseline, so freshness never fires —
yields an in-progress result, not the stale response. -/
theorem ask_timeout_in_progress_witness :
    ∃ steps, cometAsk ⟨1, "A"⟩ 1
        (fun _ => ⟨⟨1, "A"⟩, ⟨.completed, [], "", "stale answer", ""⟩⟩)
        ⟨.completed, [], "", "stale answer", ""⟩ =
      .inProgress (buildInProgress ⟨.completed, [], "", "stale answer", ""⟩ steps) := by
  apply ask_timeout_in_progress
  show noFreshComplete ⟨1, "A"⟩ false
    [⟨⟨1, "A"⟩, ⟨.completed, [], "", "stale answer", ""⟩⟩]
  refine ⟨?_, trivial⟩
  rintro ⟨-, hsaw⟩
  exact absurd hsaw (by decide)

/-- C8.  The returned `response` field is empty whenever the status is
not `completed`; its length is exactly the minimum of the cap (50000)
and the extracted length, hence any longer extracted text is truncated
to exactly the cap and the field never exceeds it. -/
theorem getAgentStatus_response_cap :
    ∀ (status : AgentState) (els : List ProseEl),
      (status ≠ .completed → responseField status els = []) ∧
      (responseField status els).length =
        min maxResponseLen (rawResponse status els).length ∧
      (responseField status els).length ≤ maxResponseLen := by
  intro status els
  refine ⟨?_, ?_, ?_⟩
  · intro h
    simp [responseField, rawResponse, h]
  · simp [responseField, List.length_take]
  · exact List.length_take_le _ _

/-- Witness for C8: a non-completed status yields the empty response,
and the cap bound holds there. -/
theorem getAgentStatus_response_cap_witness :
    responseField .idle [] = [] ∧ (responseField .idle []).length ≤ maxResponseLen :=
  ⟨(getAgentStatus_response_cap .idle []).1 (by decide),
   (getAgentStatus_response_cap .idle []).2.2⟩

end CometMCP
